import Mathlib

/-!
Shallow embedding of the bxcommon core (transaction service, node runtime
callbacks, message tracker, Eth transaction feed) together with proofs about
the behaviours the specification describes.

Conventions of the embedding:
* Python dicts are embedded as `AList` (association lists with no duplicate
  keys, exactly the observable behaviour of a dict); Python sets as `Finset`.
* Transaction hashes are already canonical cache keys (the service normalises
  every accepted representation to one canonical key, so a hash is embedded as
  a single `Nat`); transaction contents are byte lists (`List Nat`).
* Sizes that Python tracks with arbitrary-precision integers are `Int`.
* `while` loops are embedded as fuel-bounded recursion, with enough fuel that
  the fuel never runs out on the executions the source can perform.
-/

namespace BxModel

/-- Modelled from the spec: `constants.NULL_TX_SID`, the sentinel short id
(`constants.py` is not among the sources). -/
def NULL_TX_SID : Nat := 0

/-- State of `TransactionService` (`services/transaction_service.py`).
The `_tx_hash_to_short_ids` defaultdict maps a cache key to a set of short
ids, `_short_id_to_tx_hash` maps a short id back to the cache key, and
`_tx_hash_to_contents` holds the raw payloads.  The expiration queue is the
spec's insertion-ordered list of (short id, enqueue time) pairs, head oldest. -/
structure TxService where
  txHashToShortIds : AList (fun _ : Nat => Finset Nat)
  shortIdToTxHash : AList (fun _ : Nat => Nat)
  txHashToContents : AList (fun _ : Nat => List Nat)
  txAssignmentExpireQueue : List (Nat × Nat)
  shortIdsSeenInBlock : List (List Nat)
  totalTxContentsSize : Int
  totalTxRemovedByMemoryLimit : Nat
  txContentMemoryLimit : Int
  finalTxConfirmationsCount : Nat
  sidExpireTime : Nat
  txAssignAlarmScheduled : Bool

/-- Modelled from the spec: `ExpirationQueue.add` (`utils/expiration_queue.py`
is not among the sources).  Every item is kept at most once: re-adding an
item refreshes its timestamp in place, otherwise the item is appended to the
tail. -/
def expQueueAdd (q : List (Nat × Nat)) (item now : Nat) : List (Nat × Nat) :=
  if q.any (fun e => e.1 = item) then
    q.map (fun e => if e.1 = item then (item, now) else e)
  else
    q ++ [(item, now)]

/-- Modelled from the spec: `ExpirationQueue.remove`, random removal by
value.  Items are unique in the queue, so a filter removes exactly the entry
for `item`. -/
def expQueueRemove (q : List (Nat × Nat)) (item : Nat) : List (Nat × Nat) :=
  q.filter (fun e => e.1 ≠ item)

/-- Embeds `TransactionService._remove_transaction_by_short_id`: pop the short id
from the reverse map; when it was the last short id of its hash also drop the
`hash → short_ids` entry and the cached contents (adjusting the total size);
finally drop the short id from the expiration queue. -/
def remove_transaction_by_short_id (ts : TxService) (sid : Nat) : TxService :=
  let ts1 :=
    match ts.shortIdToTxHash.lookup sid with
    | none => ts
    | some key =>
      let ts0 := { ts with shortIdToTxHash := ts.shortIdToTxHash.erase sid }
      match ts.txHashToShortIds.lookup key with
      | none => ts0
      | some sids =>
        if sids.card = 1 then
          let ts2 := { ts0 with txHashToShortIds := ts0.txHashToShortIds.erase key }
          match ts2.txHashToContents.lookup key with
          | none => ts2
          | some contents =>
            { ts2 with
                txHashToContents := ts2.txHashToContents.erase key
                totalTxContentsSize := ts2.totalTxContentsSize - contents.length }
        else
          { ts0 with txHashToShortIds := ts0.txHashToShortIds.insert key (sids.erase sid) }
  { ts1 with txAssignmentExpireQueue := expQueueRemove ts1.txAssignmentExpireQueue sid }

/-- Embeds `TransactionService.assign_short_id`: reject the null short id, otherwise
add the short id to the hash's set, point the reverse map at the hash, append
the short id to the expiration queue, and make sure the expiry alarm is
scheduled. -/
def assign_short_id (ts : TxService) (h sid now : Nat) : TxService :=
  if sid = NULL_TX_SID then ts
  else
    { ts with
        txHashToShortIds :=
          ts.txHashToShortIds.insert h
            (insert sid ((ts.txHashToShortIds.lookup h).getD ∅))
        shortIdToTxHash := ts.shortIdToTxHash.insert sid h
        txAssignmentExpireQueue := expQueueAdd ts.txAssignmentExpireQueue sid now
        txAssignAlarmScheduled := true }

/-- Body of the `while` loop of `TransactionService._memory_limit_clean_up`:
while the total contents size exceeds the limit, pop the oldest short id from
the expiration queue and remove its transaction.  Returns the state and the
number of removals.  The fuel is the queue length, which bounds the number of
iterations the source loop can make before it would fail on an empty queue. -/
def memory_clean_up_loop : Nat → TxService → TxService × Nat
  | 0, ts => (ts, 0)
  | fuel + 1, ts =>
    if ts.totalTxContentsSize ≤ ts.txContentMemoryLimit then (ts, 0)
    else
      match ts.txAssignmentExpireQueue with
      | [] => (ts, 0)
      | (sid, _) :: rest =>
        let ts2 := remove_transaction_by_short_id
          { ts with txAssignmentExpireQueue := rest } sid
        let p := memory_clean_up_loop fuel ts2
        (p.1, p.2 + 1)

/-- Embeds `TransactionService._memory_limit_clean_up`: nothing to do while under the
limit, otherwise evict oldest-first and add the burst to the removal
counter. -/
def memory_limit_clean_up (ts : TxService) : TxService :=
  if ts.totalTxContentsSize ≤ ts.txContentMemoryLimit then ts
  else
    let p := memory_clean_up_loop ts.txAssignmentExpireQueue.length ts
    { p.1 with totalTxRemovedByMemoryLimit := p.1.totalTxRemovedByMemoryLimit + p.2 }

/-- Embeds `TransactionService.set_transaction_contents`: replace prior contents,
adjust the total size by the delta, then run the memory-limit clean up. -/
def set_transaction_contents (ts : TxService) (h : Nat) (contents : List Nat) : TxService :=
  let previousSize : Int :=
    match ts.txHashToContents.lookup h with
    | some c => c.length
    | none => 0
  memory_limit_clean_up
    { ts with
        txHashToContents := ts.txHashToContents.insert h contents
        totalTxContentsSize := ts.totalTxContentsSize + contents.length - previousSize }

/-- Body of `ExpirationQueue.remove_expired` with
`_remove_transaction_by_short_id` as the removal callback (the spec: pop from
the head while `head.timestamp + TTL ≤ now`). -/
def remove_expired_loop : Nat → TxService → Nat → TxService
  | 0, ts, _ => ts
  | fuel + 1, ts, now =>
    match ts.txAssignmentExpireQueue with
    | [] => ts
    | (sid, t) :: rest =>
      if t + ts.sidExpireTime ≤ now then
        remove_expired_loop fuel
          (remove_transaction_by_short_id { ts with txAssignmentExpireQueue := rest } sid) now
      else ts

/-- Embeds `TransactionService.expire_old_assignments`: drop every expired short id;
when the queue has drained completely the expiry alarm flag is cleared. -/
def expire_old_assignments (ts : TxService) (now : Nat) : TxService :=
  let ts2 := remove_expired_loop ts.txAssignmentExpireQueue.length ts now
  if 0 < ts2.txAssignmentExpireQueue.length then ts2
  else { ts2 with txAssignAlarmScheduled := false }

/-- Embeds `TransactionService.track_seen_short_ids`: append the batch; once more
than `final_tx_confirmations_count` batches are pending, pop the oldest batch
and remove each of its short ids. -/
def track_seen_short_ids (ts : TxService) (sids : List Nat) : TxService :=
  let ts1 := { ts with shortIdsSeenInBlock := ts.shortIdsSeenInBlock ++ [sids] }
  if ts1.finalTxConfirmationsCount < ts1.shortIdsSeenInBlock.length then
    match ts1.shortIdsSeenInBlock with
    | [] => ts1
    | batch :: rest =>
      batch.foldl remove_transaction_by_short_id
        { ts1 with shortIdsSeenInBlock := rest }
  else ts1

/-- A freshly constructed `TransactionService` (empty indices, configured
memory limit, confirmation count and short-id TTL). -/
def initTxService (limit : Int) (confirmations ttl : Nat) : TxService where
  txHashToShortIds := ∅
  shortIdToTxHash := ∅
  txHashToContents := ∅
  txAssignmentExpireQueue := []
  shortIdsSeenInBlock := []
  totalTxContentsSize := 0
  totalTxRemovedByMemoryLimit := 0
  txContentMemoryLimit := limit
  finalTxConfirmationsCount := confirmations
  sidExpireTime := ttl
  txAssignAlarmScheduled := false

/-- The operations the transaction-service claims quantify over: short-id
assignment, contents insertion (which triggers memory-limit eviction), TTL
expiry, and block-confirmation tracking. -/
inductive TxOp where
  | assign (h sid now : Nat)
  | setContents (h : Nat) (contents : List Nat)
  | expire (now : Nat)
  | trackSeen (sids : List Nat)

/-- Interpret one operation on the service. -/
def applyTxOp (ts : TxService) : TxOp → TxService
  | .assign h sid now => assign_short_id ts h sid now
  | .setContents h c => set_transaction_contents ts h c
  | .expire now => expire_old_assignments ts now
  | .trackSeen sids => track_seen_short_ids ts sids

/-- Interpret a sequence of operations, left to right. -/
def applyTxOps (ts : TxService) (ops : List TxOp) : TxService :=
  ops.foldl applyTxOp ts

/-- The set of short ids the service records for a hash (empty when the hash
is unknown). -/
def sidsOf (ts : TxService) (h : Nat) : Finset Nat :=
  (ts.txHashToShortIds.lookup h).getD ∅

/-- Transaction-index coherence: every reverse-map entry `sid → hash` has
`sid` in the hash's short-id set, and every short id in a hash's set maps
back to exactly that hash. -/
def Coherent (ts : TxService) : Prop :=
  (∀ sid h, ts.shortIdToTxHash.lookup sid = some h → sid ∈ sidsOf ts h) ∧
  (∀ h s, ts.txHashToShortIds.lookup h = some s →
    ∀ sid ∈ s, ts.shortIdToTxHash.lookup sid = some h)

/-- An assignment is non-reassigning when its short id is either fresh or
already mapped to the same hash.  All other operations are unrestricted. -/
def txOpSafe (ts : TxService) : TxOp → Bool
  | .assign h sid _ =>
    match ts.shortIdToTxHash.lookup sid with
    | none => true
    | some h2 => h2 = h
  | _ => true

/-- A sequence of operations is safe when each operation is safe in the state
it is applied to. -/
def txOpsSafe (ts : TxService) : List TxOp → Bool
  | [] => true
  | op :: rest => txOpSafe ts op && txOpsSafe (applyTxOp ts op) rest

theorem coherent_remove (ts : TxService) (sid : Nat) (hco : Coherent ts) :
    Coherent (remove_transaction_by_short_id ts sid) := by
  obtain ⟨h1, h2⟩ := hco
  simp only [remove_transaction_by_short_id]
  cases hlk : ts.shortIdToTxHash.lookup sid with
  | none =>
    exact ⟨h1, h2⟩
  | some key =>
    dsimp only
    have hmemsid : sid ∈ sidsOf ts key := h1 sid key hlk
    cases hlk2 : ts.txHashToShortIds.lookup key with
    | none => simp [sidsOf, hlk2] at hmemsid
    | some sids =>
      dsimp only
      have hsidmem : sid ∈ sids := by simpa [sidsOf, hlk2] using hmemsid
      by_cases hcard : sids.card = 1
      · have hsingle : sids = {sid} := by
          obtain ⟨x, hx⟩ := Finset.card_eq_one.mp hcard
          rw [hx] at hsidmem ⊢
          rw [Finset.mem_singleton] at hsidmem
          rw [hsidmem]
        rw [if_pos hcard]
        have hdir1 : ∀ s h, (ts.shortIdToTxHash.erase sid).lookup s = some h →
            s ∈ ((ts.txHashToShortIds.erase key).lookup h).getD ∅ := by
          intro s h hl
          have hssid : s ≠ sid := by
            intro heq; subst heq; rw [AList.lookup_erase] at hl; cases hl
          rw [AList.lookup_erase_ne hssid] at hl
          have hmem := h1 s h hl
          have hkey : h ≠ key := by
            intro heq; subst heq
            have hs : s ∈ sids := by simpa [sidsOf, hlk2] using hmem
            rw [hsingle, Finset.mem_singleton] at hs
            exact hssid hs
          rw [AList.lookup_erase_ne hkey]
          exact hmem
        have hdir2 : ∀ h s, (ts.txHashToShortIds.erase key).lookup h = some s →
            ∀ sid2 ∈ s, (ts.shortIdToTxHash.erase sid).lookup sid2 = some h := by
          intro h s hl sid2 hmem2
          have hkey : h ≠ key := by
            intro heq; subst heq; rw [AList.lookup_erase] at hl; cases hl
          rw [AList.lookup_erase_ne hkey] at hl
          have hfwd := h2 h s hl sid2 hmem2
          have hs2 : sid2 ≠ sid := by
            intro heq; subst heq
            rw [hlk] at hfwd
            exact hkey (Option.some.inj hfwd).symm
          rw [AList.lookup_erase_ne hs2]
          exact hfwd
        cases hlk3 : ts.txHashToContents.lookup key with
        | none => exact ⟨hdir1, hdir2⟩
        | some contents => dsimp only; exact ⟨hdir1, hdir2⟩
      · rw [if_neg hcard]
        constructor
        · intro s h hl
          have hssid : s ≠ sid := by
            intro heq; subst heq; rw [AList.lookup_erase] at hl; cases hl
          rw [AList.lookup_erase_ne hssid] at hl
          have hmem := h1 s h hl
          by_cases hkey : h = key
          · subst hkey
            have hs : s ∈ sids := by simpa [sidsOf, hlk2] using hmem
            show s ∈ ((AList.insert h (sids.erase sid) ts.txHashToShortIds).lookup h).getD ∅
            rw [AList.lookup_insert]
            exact Finset.mem_erase.mpr ⟨hssid, hs⟩
          · show s ∈ ((AList.insert key (sids.erase sid) ts.txHashToShortIds).lookup h).getD ∅
            rw [AList.lookup_insert_ne hkey]
            exact hmem
        · intro h s hl sid2 hmem2
          by_cases hkey : h = key
          · subst hkey
            rw [AList.lookup_insert] at hl
            have hs : s = sids.erase sid := (Option.some.inj hl).symm
            subst hs
            obtain ⟨hne, hmem3⟩ := Finset.mem_erase.mp hmem2
            have hfwd := h2 h sids hlk2 sid2 hmem3
            rw [AList.lookup_erase_ne hne]
            exact hfwd
          · rw [AList.lookup_insert_ne hkey] at hl
            have hfwd := h2 h s hl sid2 hmem2
            have hs2 : sid2 ≠ sid := by
              intro heq; subst heq
              rw [hlk] at hfwd
              exact hkey (Option.some.inj hfwd).symm
            rw [AList.lookup_erase_ne hs2]
            exact hfwd

theorem coherent_assign (ts : TxService) (h sid now : Nat) (hco : Coherent ts)
    (hsafe : ts.shortIdToTxHash.lookup sid = none ∨ ts.shortIdToTxHash.lookup sid = some h) :
    Coherent (assign_short_id ts h sid now) := by
  obtain ⟨h1, h2⟩ := hco
  simp only [assign_short_id]
  by_cases hnull : sid = NULL_TX_SID
  · rw [if_pos hnull]; exact ⟨h1, h2⟩
  · rw [if_neg hnull]
    constructor
    · intro s h2x hl
      by_cases hss : s = sid
      · subst hss
        rw [AList.lookup_insert] at hl
        have : h2x = h := (Option.some.inj hl).symm
        subst this
        show s ∈ ((AList.insert h2x _ ts.txHashToShortIds).lookup h2x).getD ∅
        rw [AList.lookup_insert]
        exact Finset.mem_insert_self _ _
      · rw [AList.lookup_insert_ne hss] at hl
        have hmem := h1 s h2x hl
        by_cases hkey : h2x = h
        · subst hkey
          show s ∈ ((AList.insert h2x _ ts.txHashToShortIds).lookup h2x).getD ∅
          rw [AList.lookup_insert]
          exact Finset.mem_insert_of_mem hmem
        · show s ∈ ((AList.insert h _ ts.txHashToShortIds).lookup h2x).getD ∅
          rw [AList.lookup_insert_ne hkey]
          exact hmem
    · intro h2x s hl sid2 hmem2
      by_cases hkey : h2x = h
      · subst hkey
        rw [AList.lookup_insert] at hl
        have hs : s = insert sid ((ts.txHashToShortIds.lookup h2x).getD ∅) :=
          (Option.some.inj hl).symm
        subst hs
        by_cases hs2 : sid2 = sid
        · subst hs2
          rw [AList.lookup_insert]
        · have hmem3 : sid2 ∈ (ts.txHashToShortIds.lookup h2x).getD ∅ := by
            rcases Finset.mem_insert.mp hmem2 with heq | hmem3
            · exact absurd heq hs2
            · exact hmem3
          rw [AList.lookup_insert_ne hs2]
          cases hlk1 : ts.txHashToShortIds.lookup h2x with
          | none => rw [hlk1] at hmem3; simp at hmem3
          | some ss =>
            refine h2 h2x ss hlk1 sid2 ?_
            rw [hlk1] at hmem3
            simpa using hmem3
      · rw [AList.lookup_insert_ne hkey] at hl
        have hfwd := h2 h2x s hl sid2 hmem2
        have hs2 : sid2 ≠ sid := by
          intro heq; subst heq
          rcases hsafe with hn | hs
          · rw [hn] at hfwd; cases hfwd
          · rw [hs] at hfwd; exact hkey (Option.some.inj hfwd).symm
        rw [AList.lookup_insert_ne hs2]
        exact hfwd

theorem coherent_clean_up_loop (fuel : Nat) :
    ∀ ts : TxService, Coherent ts → Coherent (memory_clean_up_loop fuel ts).1 := by
  induction fuel with
  | zero => intro ts h; exact h
  | succ n ih =>
    intro ts h
    simp only [memory_clean_up_loop]
    by_cases hle : ts.totalTxContentsSize ≤ ts.txContentMemoryLimit
    · rw [if_pos hle]; exact h
    · rw [if_neg hle]
      cases hq : ts.txAssignmentExpireQueue with
      | nil => exact h
      | cons head rest =>
        obtain ⟨s, t⟩ := head
        dsimp only
        exact ih _ (coherent_remove _ _ h)

theorem coherent_memory_limit_clean_up (ts : TxService) (h : Coherent ts) :
    Coherent (memory_limit_clean_up ts) := by
  simp only [memory_limit_clean_up]
  by_cases hle : ts.totalTxContentsSize ≤ ts.txContentMemoryLimit
  · rw [if_pos hle]; exact h
  · rw [if_neg hle]
    exact coherent_clean_up_loop _ ts h

theorem coherent_remove_expired_loop (fuel : Nat) :
    ∀ (ts : TxService) (now : Nat), Coherent ts →
      Coherent (remove_expired_loop fuel ts now) := by
  induction fuel with
  | zero => intro ts now h; exact h
  | succ n ih =>
    intro ts now h
    simp only [remove_expired_loop]
    cases hq : ts.txAssignmentExpireQueue with
    | nil => exact h
    | cons head rest =>
      obtain ⟨s, t⟩ := head
      dsimp only
      by_cases hexp : t + ts.sidExpireTime ≤ now
      · rw [if_pos hexp]
        exact ih _ _ (coherent_remove _ _ h)
      · rw [if_neg hexp]; exact h

theorem coherent_remove_foldl (sids : List Nat) :
    ∀ ts : TxService, Coherent ts →
      Coherent (sids.foldl remove_transaction_by_short_id ts) := by
  induction sids with
  | nil => intro ts h; exact h
  | cons s rest ih =>
    intro ts h
    exact ih _ (coherent_remove _ _ h)

theorem coherent_applyTxOp (ts : TxService) (op : TxOp) (h : Coherent ts)
    (hs : txOpSafe ts op = true) : Coherent (applyTxOp ts op) := by
  cases op with
  | assign hh sid now =>
    simp only [txOpSafe] at hs
    cases hl : ts.shortIdToTxHash.lookup sid with
    | none => exact coherent_assign ts hh sid now h (Or.inl hl)
    | some h2 =>
      rw [hl] at hs
      have heq : h2 = hh := by simpa using hs
      subst heq
      exact coherent_assign ts h2 sid now h (Or.inr hl)
  | setContents hh c =>
    exact coherent_memory_limit_clean_up _ h
  | expire now =>
    show Coherent (expire_old_assignments ts now)
    simp only [expire_old_assignments]
    by_cases hlen :
        0 < (remove_expired_loop ts.txAssignmentExpireQueue.length ts now).txAssignmentExpireQueue.length
    · rw [if_pos hlen]
      exact coherent_remove_expired_loop _ ts now h
    · rw [if_neg hlen]
      exact coherent_remove_expired_loop _ ts now h
  | trackSeen sids =>
    show Coherent (track_seen_short_ids ts sids)
    simp only [track_seen_short_ids]
    by_cases hlen : ({ ts with shortIdsSeenInBlock := ts.shortIdsSeenInBlock ++ [sids] } :
        TxService).finalTxConfirmationsCount <
        ({ ts with shortIdsSeenInBlock := ts.shortIdsSeenInBlock ++ [sids] } :
          TxService).shortIdsSeenInBlock.length
    · rw [if_pos hlen]
      cases hq : ts.shortIdsSeenInBlock ++ [sids] with
      | nil => exact h
      | cons batch rest =>
        dsimp only
        exact coherent_remove_foldl batch _ h
    · rw [if_neg hlen]; exact h

theorem coherent_applyTxOps (ops : List TxOp) :
    ∀ ts : TxService, Coherent ts → txOpsSafe ts ops = true →
      Coherent (applyTxOps ts ops) := by
  induction ops with
  | nil => intro ts h _; exact h
  | cons op rest ih =>
    intro ts h hs
    simp only [txOpsSafe, Bool.and_eq_true] at hs
    exact ih (applyTxOp ts op) (coherent_applyTxOp ts op h hs.1) hs.2

theorem coherent_init (limit : Int) (confirmations ttl : Nat) :
    Coherent (initTxService limit confirmations ttl) := by
  constructor
  · intro s h hl
    simp only [initTxService] at hl
    rw [AList.lookup_empty] at hl
    cases hl
  · intro h s hl
    simp only [initTxService] at hl
    rw [AList.lookup_empty] at hl
    cases hl

/-- The state obtained by assigning short id 5 first to hash 1 and then to
hash 2: hash 1's short-id set still contains 5, but the reverse map now sends
5 to hash 2. -/
def c1ReassignedState : TxService :=
  applyTxOps (initTxService 1000 24 60) [.assign 1 5 0, .assign 2 5 1]

/-- C1, counterexample to the claim as stated: transaction-index coherence is
not preserved by arbitrary `assign_short_id` calls.  After
`assign_short_id(1, 5)` followed by `assign_short_id(2, 5)` (reassigning
short id 5 to a different hash), hash 1's short-id set still contains 5 while
`short_id_to_tx_hash[5] = 2`, so "for every hash whose short-id set contains
`sid`, `short_id_to_tx_hash[sid]` equals that hash" fails. -/
theorem c1_coherence_counterexample : ¬ Coherent c1ReassignedState := by
  intro hco
  have hlk : c1ReassignedState.txHashToShortIds.lookup 1 = some {5} := by decide
  have h := hco.2 1 {5} hlk 5 (Finset.mem_singleton_self 5)
  have hne : ¬ (c1ReassignedState.shortIdToTxHash.lookup 5 = some 1) := by decide
  exact hne h

/-- C1 (amended): after any sequence of `assign_short_id` calls and removals
(TTL expiry, memory-limit eviction via `set_transaction_contents`,
block-confirmation eviction via `track_seen_short_ids`) starting from a fresh
service, in which no `assign_short_id` call reassigns a short id that is
currently mapped to a different hash, the transaction index is coherent: every
`sid → hash` entry has `sid` in `hash_to_short_ids[hash]`, and every short id
in a hash's set maps back to that hash. -/
theorem c1_tx_index_coherence (limit : Int) (confirmations ttl : Nat)
    (ops : List TxOp)
    (hsafe : txOpsSafe (initTxService limit confirmations ttl) ops = true) :
    Coherent (applyTxOps (initTxService limit confirmations ttl) ops) :=
  coherent_applyTxOps ops _ (coherent_init limit confirmations ttl) hsafe

/-- A small concrete run exercising every operation kind. -/
def c1WitnessOps : List TxOp :=
  [.assign 1 5 0, .setContents 1 [7, 7], .assign 1 6 1,
   .trackSeen [5], .expire 100, .setContents 2 [0, 0, 0]]

theorem c1_tx_index_coherence_witness :
    txOpsSafe (initTxService 10 0 2) c1WitnessOps = true ∧
      Coherent (applyTxOps (initTxService 10 0 2) c1WitnessOps) :=
  ⟨by decide, c1_tx_index_coherence 10 0 2 c1WitnessOps (by decide)⟩

/-- A 400-byte transaction contents payload. -/
def c2Contents : List Nat := List.replicate 400 0

/-- Scenario S5: memory limit 1000 bytes; for each of the hashes 1, 2, 3 a
short id (11, 12, 13) is assigned and 400 bytes of contents are set, in that
order, so short id 11 is the oldest entry of the expiration queue. -/
def c2Final : TxService :=
  applyTxOps (initTxService 1000 24 60)
    [.assign 1 11 0, .setContents 1 c2Contents,
     .assign 2 12 1, .setContents 2 c2Contents,
     .assign 3 13 2, .setContents 3 c2Contents]

set_option maxRecDepth 100000 in
/-- C2: with a 1000-byte contents limit, inserting three 400-byte
transactions H1, H2, H3 in order evicts exactly H1: H1 is absent from all
three indices, H2 and H3 remain, the total contents size is 800 and the
memory-limit removal counter is 1. -/
theorem c2_memory_bound_eviction :
    c2Final.txHashToShortIds.lookup 1 = none ∧
    c2Final.shortIdToTxHash.lookup 11 = none ∧
    c2Final.txHashToContents.lookup 1 = none ∧
    c2Final.txHashToShortIds.lookup 2 = some {12} ∧
    c2Final.txHashToShortIds.lookup 3 = some {13} ∧
    c2Final.shortIdToTxHash.lookup 12 = some 2 ∧
    c2Final.shortIdToTxHash.lookup 13 = some 3 ∧
    c2Final.txHashToContents.lookup 2 = some c2Contents ∧
    c2Final.txHashToContents.lookup 3 = some c2Contents ∧
    c2Final.totalTxContentsSize = 800 ∧
    c2Final.totalTxRemovedByMemoryLimit = 1 := by
  decide

/-! ### Node runtime (`connections/abstract_node.py`)

`ConnectionType`, `ConnectionState`, `ConnectionPool`, `AbstractConnection`
and `constants.py` are not among the sources; they are modelled from the
spec: connection types and states are bitmasks, the pool is a triply-indexed
set of connections (embedded as the underlying list, with each index an
appropriate lookup), and a connection owns an input buffer (a list of
received byte chunks) and an output buffer (a list of byte slices plus an
advance cursor into the head slice). -/

/-- Modelled from the spec: `ConnectionType.SDN` bit. -/
def CT_SDN : Nat := 1

/-- Modelled from the spec: `ConnectionType.RELAY_TRANSACTION` bit. -/
def CT_RELAY_TRANSACTION : Nat := 2

/-- Modelled from the spec: `ConnectionType.RELAY_BLOCK` bit. -/
def CT_RELAY_BLOCK : Nat := 4

/-- Modelled from the spec: `ConnectionType.RELAY_ALL`, the union of the two
relay bits. -/
def CT_RELAY_ALL : Nat := 6

/-- Modelled from the spec: `ConnectionType.BLOCKCHAIN_NODE` bit. -/
def CT_BLOCKCHAIN_NODE : Nat := 8

/-- Modelled from the spec: `ConnectionType.REMOTE_BLOCKCHAIN_NODE` bit. -/
def CT_REMOTE_BLOCKCHAIN_NODE : Nat := 16

/-- Modelled from the spec: `ConnectionState.CONNECTING` bit. -/
def CS_CONNECTING : Nat := 1

/-- Modelled from the spec: `ConnectionState.INITIALIZED` bit. -/
def CS_INITIALIZED : Nat := 2

/-- Modelled from the spec: `ConnectionState.ESTABLISHED` bit. -/
def CS_ESTABLISHED : Nat := 4

/-- Modelled from the spec: `ConnectionState.MARK_FOR_CLOSE` bit. -/
def CS_MARK_FOR_CLOSE : Nat := 8

/-- Modelled from the spec: `constants.ALL_NETWORK_NUM`, the wildcard network
number. -/
def ALL_NETWORK_NUM : Nat := 0

/-- Modelled from the spec: `constants.CONNECTION_RETRY_SECONDS` (the unit
test of `destroy_conn` expects the retry alarm to be registered with delay
1). -/
def CONNECTION_RETRY_SECONDS : Nat := 1

/-- Modelled from the spec: `constants.CONNECTION_TIMEOUT`. -/
def CONNECTION_TIMEOUT : Nat := 30

/-- A peer connection: file descriptor, peer address, direction, type flags,
network number, state bitmask, input buffer (received chunks) and output
buffer (byte slices plus the advance cursor into the head slice). -/
structure Connection where
  fileno : Nat
  ip : Nat
  port : Nat
  fromMe : Bool
  connectionType : Nat
  networkNum : Nat
  state : Nat
  inputList : List (List Nat)
  outputMsgs : List (List Nat)
  outputIndex : Nat
deriving DecidableEq, Repr

/-- Modelled from the spec: `AbstractConnection.is_active` — the handshake
has completed (`ESTABLISHED`) and the connection is not marked for close. -/
def is_active (c : Connection) : Bool :=
  c.state &&& CS_ESTABLISHED ≠ 0 && c.state &&& CS_MARK_FOR_CLOSE = 0

/-- Modelled from the spec: `AbstractConnection.mark_for_close` sets the
terminal state bit. -/
def mark_for_close (c : Connection) : Connection :=
  { c with state := c.state ||| CS_MARK_FOR_CLOSE }

/-- Modelled from the spec: `AbstractConnection.add_received_bytes` appends
the received chunk to the connection's input buffer. -/
def add_received_bytes (c : Connection) (bs : List Nat) : Connection :=
  { c with inputList := c.inputList ++ [bs] }

/-- Modelled from the spec: `OutputBuffer.prepend_msg` — insert at the front
when nothing of the head slice has been handed to the kernel, otherwise
immediately after the partially-sent head to preserve framing. -/
def prepend_msg_buf (msgs : List (List Nat)) (index : Nat) (b : List Nat) :
    List (List Nat) :=
  if index = 0 then b :: msgs
  else
    match msgs with
    | [] => [b]
    | h :: t => h :: b :: t

/-- Modelled from the spec: `AbstractConnection.enqueue_msg` — drop the
message when the connection is marked for close, otherwise append its bytes
to the output buffer (or prepend when requested). -/
def conn_enqueue_msg (c : Connection) (msg : List Nat) (prependToQueue : Bool) :
    Connection :=
  if c.state &&& CS_MARK_FOR_CLOSE ≠ 0 then c
  else if prependToQueue then
    { c with outputMsgs := prepend_msg_buf c.outputMsgs c.outputIndex msg }
  else
    { c with outputMsgs := c.outputMsgs ++ [msg] }

/-- Modelled from the spec: the `while` loop of `OutputBuffer.advance_buffer`
pops fully-consumed head slices off the cursor. -/
def advance_buffer_loop : Nat → List (List Nat) → Nat → List (List Nat) × Nat
  | 0, msgs, index => (msgs, index)
  | fuel + 1, msgs, index =>
    match msgs with
    | [] => ([], index)
    | h :: t =>
      if index ≠ 0 ∧ h.length ≤ index then
        advance_buffer_loop fuel t (index - h.length)
      else (h :: t, index)

/-- Modelled from the spec: `AbstractConnection.advance_sent_bytes` advances
the output buffer cursor by the number of bytes the kernel accepted. -/
def advance_sent_bytes (c : Connection) (n : Nat) : Connection :=
  let p := advance_buffer_loop c.outputMsgs.length c.outputMsgs (c.outputIndex + n)
  { c with outputMsgs := p.1, outputIndex := p.2 }

/-- Modelled from the spec: `AbstractConnection.get_bytes_to_send` returns
the not-yet-sent remainder of the head output-buffer slice. -/
def conn_get_bytes_to_send (c : Connection) : Option (List Nat) :=
  match c.outputMsgs with
  | [] => none
  | h :: _ => some (h.drop c.outputIndex)

/-- Modelled from the spec: `ConnectionPool.has_connection`, the
`(ip, port)` index. -/
def has_connection (pool : List Connection) (ip port : Nat) : Bool :=
  pool.any fun c => c.ip = ip && c.port = port

/-- Modelled from the spec: `ConnectionPool.get_by_fileno`. -/
def get_by_fileno (pool : List Connection) (fn : Nat) : Option Connection :=
  pool.find? fun c => c.fileno = fn

/-- Modelled from the spec: `ConnectionPool.delete` removes the connection
from every index; connection identity is its file descriptor. -/
def pool_delete (pool : List Connection) (fn : Nat) : List Connection :=
  pool.filter fun c => c.fileno ≠ fn

/-- Replacing a connection object in the pool (Python mutates the object in
place; the embedding writes the updated record back by fileno). -/
def update_conn (pool : List Connection) (c : Connection) : List Connection :=
  pool.map fun x => if x.fileno = c.fileno then c else x

/-- Modelled from the spec: `ConnectionPool.get_by_connection_type` returns
the union of the per-bit sets, i.e. every connection whose type intersects
the requested flags. -/
def get_by_connection_type (pool : List Connection) (t : Nat) : List Connection :=
  pool.filter fun c => c.connectionType &&& t ≠ 0

/-- The node state touched by the claims: the connection pool, the outbound
connect / disconnect request queues, the configured outbound peers, the
per-address retry counters, registered alarm delays, submitted
`PEER_CONN_ERR` events, relay-peer requests, the node's network number and
the configured `MAX_CONNECT_RETRIES` (spec §6 lists it among the configurable
constants). -/
structure Node where
  pool : List Connection
  connectionQueue : List (Nat × Nat)
  disconnectQueue : List Nat
  outboundPeers : List (Nat × Nat)
  numRetriesByIp : AList (fun _ : Nat × Nat => Nat)
  alarms : List Nat
  events : List (Nat × Nat)
  relayPeerRequests : Nat
  networkNum : Nat
  maxConnectRetries : Nat
  sdnConnection : Option Nat

/-- Embeds `AbstractNode.enqueue_disconnect`: FIFO append of the fileno. -/
def enqueue_disconnect (node : Node) (fileno : Nat) : Node :=
  { node with disconnectQueue := node.disconnectQueue ++ [fileno] }

/-- Embeds `AbstractNode.enqueue_connection`: FIFO append of the address. -/
def enqueue_connection (node : Node) (ip port : Nat) : Node :=
  { node with connectionQueue := node.connectionQueue ++ [(ip, port)] }

/-- Embeds `AlarmQueue.register_alarm`, reduced to recording the requested delay
(the claims only observe which delays get scheduled). -/
def register_alarm (node : Node) (delay : Nat) : Node :=
  { node with alarms := node.alarms ++ [delay] }

/-- Embeds `AbstractNode.is_outbound_peer`. -/
def is_outbound_peer (node : Node) (ip port : Nat) : Bool :=
  node.outboundPeers.any fun p => p.1 = ip && p.2 = port

/-- Embeds `AbstractNode.on_failed_connection_retry`: for relay connections submit a
`PEER_CONN_ERR` event to the SDN and request fresh relay peers. -/
def on_failed_connection_retry (node : Node) (ip port ctype : Nat) : Node :=
  if ctype &&& CT_RELAY_ALL ≠ 0 then
    { node with
        events := node.events ++ [(ip, port)]
        relayPeerRequests := node.relayPeerRequests + 1 }
  else node

/-- Embeds `AbstractNode.destroy_conn`: delete from the pool, mark the (now
unreachable) connection object for close, schedule a retry alarm for
eligible peers (or report the failure when not retrying), and enqueue the
disconnect.  Marking the object is invisible afterwards because the object
has left the pool. -/
def destroy_conn (node : Node) (conn : Connection) (retryConnection : Bool) : Node :=
  let node1 := { node with pool := pool_delete node.pool conn.fileno }
  let node2 :=
    if retryConnection then
      if is_outbound_peer node1 conn.ip conn.port
          || conn.connectionType = CT_BLOCKCHAIN_NODE
          || conn.connectionType = CT_REMOTE_BLOCKCHAIN_NODE
          || conn.connectionType = CT_SDN then
        register_alarm node1 CONNECTION_RETRY_SECONDS
      else node1
    else on_failed_connection_retry node1 conn.ip conn.port conn.connectionType
  enqueue_disconnect node2 conn.fileno

/-- Embeds `AbstractNode.on_bytes_received`: unknown fileno and marked-for-close
connections are ignored; otherwise the chunk is appended to the input buffer
and a connection that became marked during processing is destroyed. -/
def on_bytes_received (node : Node) (fileno : Nat) (bs : List Nat) : Node :=
  match get_by_fileno node.pool fileno with
  | none => node
  | some conn =>
    if conn.state &&& CS_MARK_FOR_CLOSE ≠ 0 then node
    else
      let conn2 := add_received_bytes conn bs
      let node2 := { node with pool := update_conn node.pool conn2 }
      if conn2.state &&& CS_MARK_FOR_CLOSE ≠ 0 then destroy_conn node2 conn2 false
      else node2

/-- Embeds `AbstractNode.on_finished_receiving`: unknown fileno and marked-for-close
connections are ignored; otherwise `process_message` runs.  The message
processing itself is per-protocol and abstract in the source, so it is a
parameter. -/
def on_finished_receiving (processMessage : Connection → Connection)
    (node : Node) (fileno : Nat) : Node :=
  match get_by_fileno node.pool fileno with
  | none => node
  | some conn =>
    if conn.state &&& CS_MARK_FOR_CLOSE ≠ 0 then node
    else { node with pool := update_conn node.pool (processMessage conn) }

/-- Embeds `AbstractNode.get_bytes_to_send`: nothing for unknown filenos and
marked-for-close connections, otherwise the connection's pending bytes. -/
def get_bytes_to_send (node : Node) (fileno : Nat) : Option (List Nat) :=
  match get_by_fileno node.pool fileno with
  | none => none
  | some conn =>
    if conn.state &&& CS_MARK_FOR_CLOSE ≠ 0 then none
    else conn_get_bytes_to_send conn

/-- Embeds `AbstractNode.on_bytes_sent`: advance the connection's output buffer.
Unlike the receive-side callbacks, the source performs no
`MARK_FOR_CLOSE` check here. -/
def on_bytes_sent (node : Node) (fileno : Nat) (bytesSent : Nat) : Node :=
  match get_by_fileno node.pool fileno with
  | none => node
  | some conn =>
    { node with pool := update_conn node.pool (advance_sent_bytes conn bytesSent) }

/-- Embeds `AbstractNode._initialize_connection`: build the connection (abstract
method, a parameter), register the connection-timeout alarm and add it to
the pool; when building fails, enqueue a disconnect of the socket. -/
def initialize_connection (buildConn : Nat → Nat → Nat → Bool → Option Connection)
    (node : Node) (fileno ip port : Nat) (fromMe : Bool) : Node :=
  match buildConn fileno ip port fromMe with
  | some conn =>
    let node1 := register_alarm node CONNECTION_TIMEOUT
    let node2 := { node1 with pool := node1.pool ++ [conn] }
    if conn.connectionType = CT_SDN then { node2 with sdnConnection := some conn.fileno }
    else node2
  | none => enqueue_disconnect node fileno

/-- Embeds `AbstractNode.on_connection_added`: a duplicate `(ip, port)` keeps the
existing connection and schedules a disconnect of the new socket; otherwise
a fresh connection is initialized. -/
def on_connection_added (buildConn : Nat → Nat → Nat → Bool → Option Connection)
    (node : Node) (fileno ip port : Nat) (fromMe : Bool) : Node :=
  if has_connection node.pool ip port then enqueue_disconnect node fileno
  else initialize_connection buildConn node fileno ip port fromMe

/-- The recipient condition of `AbstractNode.broadcast`: in the union of the
requested connection types, active, not the sender, and on a matching
network (wildcard matching disabled by `exclude_relays`). -/
def broadcast_selected (senderFileno : Option Nat) (broadcastNetNum : Nat)
    (connectionTypes : List Nat) (excludeRelays : Bool) (c : Connection) : Bool :=
  connectionTypes.any (fun t => c.connectionType &&& t ≠ 0) &&
  is_active c &&
  senderFileno ≠ some c.fileno &&
  ((!excludeRelays && c.networkNum = ALL_NETWORK_NUM) || c.networkNum = broadcastNetNum)

/-- The loop of `AbstractNode.broadcast` over the pooled connections: each
matching connection gets the message enqueued and is collected. -/
def broadcast_loop (msg : List Nat) (senderFileno : Option Nat) (prepend : Bool)
    (broadcastNetNum : Nat) (connectionTypes : List Nat) (excludeRelays : Bool) :
    List Connection → List Connection × List Nat
  | [] => ([], [])
  | c :: rest =>
    let p := broadcast_loop msg senderFileno prepend broadcastNetNum connectionTypes
      excludeRelays rest
    if broadcast_selected senderFileno broadcastNetNum connectionTypes excludeRelays c then
      (conn_enqueue_msg c msg prepend :: p.1, c.fileno :: p.2)
    else (c :: p.1, p.2)

/-- Embeds `AbstractNode.broadcast`: default the connection types to `RELAY_ALL` and
the network number to the node's own, then fan the message out; returns the
updated node and the filenos of the recipients. -/
def broadcast (node : Node) (msg : List Nat) (senderFileno : Option Nat)
    (prependToQueue : Bool) (networkNum : Option Nat)
    (connectionTypes : Option (List Nat)) (excludeRelays : Bool) : Node × List Nat :=
  let types := connectionTypes.getD [CT_RELAY_ALL]
  let broadcastNetNum := networkNum.getD node.networkNum
  let p := broadcast_loop msg senderFileno prependToQueue broadcastNetNum types
    excludeRelays node.pool
  ({ node with pool := p.1 }, p.2)

/-- Embeds `AbstractNode.should_retry_connection`: SDN connections always retry, all
others while the per-address count is below `MAX_CONNECT_RETRIES`. -/
def should_retry_connection (node : Node) (ip port ctype : Nat) : Bool :=
  ctype &&& CT_SDN ≠ 0 ||
    (node.numRetriesByIp.lookup (ip, port)).getD 0 < node.maxConnectRetries

/-- Embeds `AbstractNode._retry_init_client_socket`: bump the per-address retry
count; while retrying is allowed enqueue a fresh outbound connect, otherwise
drop the counter and report the failed retry. -/
def retry_init_client_socket (node : Node) (ip port ctype : Nat) : Node :=
  let count := (node.numRetriesByIp.lookup (ip, port)).getD 0 + 1
  let node1 := { node with numRetriesByIp := node.numRetriesByIp.insert (ip, port) count }
  if should_retry_connection node1 ip port ctype then
    enqueue_connection node1 ip port
  else
    let node2 := { node1 with numRetriesByIp := node1.numRetriesByIp.erase (ip, port) }
    on_failed_connection_retry node2 ip port ctype

/-- Runs `k` successive failed-retry callbacks for the same address. -/
def iterate_retry (ip port ctype : Nat) : Nat → Node → Node
  | 0, node => node
  | k + 1, node => retry_init_client_socket (iterate_retry ip port ctype k node) ip port ctype

/-- C8: when a connection at `(ip, port)` already exists, `on_connection_added`
leaves the pool (and everything else) unchanged and only appends the new
socket's fileno to the disconnect queue. -/
theorem c8_duplicate_connection (buildConn : Nat → Nat → Nat → Bool → Option Connection)
    (node : Node) (fileno ip port : Nat) (fromMe : Bool)
    (hdup : has_connection node.pool ip port = true) :
    on_connection_added buildConn node fileno ip port fromMe =
      { node with disconnectQueue := node.disconnectQueue ++ [fileno] } := by
  simp only [on_connection_added, hdup, if_true, enqueue_disconnect]

/-- The pooled connection of scenario S1: address 1234:9000 on fd 5. -/
def c8Conn : Connection where
  fileno := 5
  ip := 1234
  port := 9000
  fromMe := true
  connectionType := CT_RELAY_ALL
  networkNum := 7
  state := CS_ESTABLISHED
  inputList := []
  outputMsgs := []
  outputIndex := 0

/-- A node whose pool holds exactly `c8Conn`. -/
def c8Node : Node where
  pool := [c8Conn]
  connectionQueue := []
  disconnectQueue := []
  outboundPeers := []
  numRetriesByIp := ∅
  alarms := []
  events := []
  relayPeerRequests := 0
  networkNum := 7
  maxConnectRetries := 3
  sdnConnection := none

theorem c8_duplicate_connection_witness :
    has_connection c8Node.pool 1234 9000 = true ∧
      on_connection_added (fun _ _ _ _ => none) c8Node 7 1234 9000 true =
        { c8Node with disconnectQueue := c8Node.disconnectQueue ++ [7] } :=
  ⟨by decide, c8_duplicate_connection (fun _ _ _ _ => none) c8Node 7 1234 9000 true (by decide)⟩

/-- A marked-for-close connection with three unsent bytes in its output
buffer. -/
def c4Conn : Connection where
  fileno := 1
  ip := 10
  port := 20
  fromMe := true
  connectionType := CT_RELAY_ALL
  networkNum := 7
  state := CS_MARK_FOR_CLOSE
  inputList := []
  outputMsgs := [[0, 1, 2]]
  outputIndex := 0

/-- A node whose pool holds exactly `c4Conn`. -/
def c4Node : Node where
  pool := [c4Conn]
  connectionQueue := []
  disconnectQueue := []
  outboundPeers := []
  numRetriesByIp := ∅
  alarms := []
  events := []
  relayPeerRequests := 0
  networkNum := 7
  maxConnectRetries := 3
  sdnConnection := none

/-- C4, counterexample to the claim as stated: `on_bytes_sent` is not a
no-op for a marked-for-close connection.  `c4Conn` has the `MARK_FOR_CLOSE`
bit set and output cursor 0, yet `on_bytes_sent(1, 2)` advances its output
buffer cursor to 2 — the source performs no `MARK_FOR_CLOSE` check in
`on_bytes_sent`. -/
theorem c4_marked_on_bytes_sent_counterexample :
    c4Conn.state &&& CS_MARK_FOR_CLOSE ≠ 0 ∧
    get_by_fileno c4Node.pool 1 = some c4Conn ∧
    c4Conn.outputIndex = 0 ∧
    (get_by_fileno (on_bytes_sent c4Node 1 2).pool 1).map (fun c => c.outputIndex) =
      some 2 := by
  decide

/-- C4 (amended): for a pooled connection whose state has the
`MARK_FOR_CLOSE` bit set, `on_bytes_received`, `on_finished_receiving` and
`get_bytes_to_send` are no-ops (the node is unchanged and nothing is
returned), but `on_bytes_sent` still advances the connection's output
buffer. -/
theorem c4_mark_for_close_noop (node : Node) (fileno : Nat) (conn : Connection)
    (bs : List Nat) (n : Nat) (processMessage : Connection → Connection)
    (hconn : get_by_fileno node.pool fileno = some conn)
    (hmark : conn.state &&& CS_MARK_FOR_CLOSE ≠ 0) :
    on_bytes_received node fileno bs = node ∧
    on_finished_receiving processMessage node fileno = node ∧
    get_bytes_to_send node fileno = none ∧
    on_bytes_sent node fileno n =
      { node with pool := update_conn node.pool (advance_sent_bytes conn n) } := by
  refine ⟨?_, ?_, ?_, ?_⟩ <;>
    simp [on_bytes_received, on_finished_receiving, get_bytes_to_send, on_bytes_sent,
      hconn, hmark]

theorem c4_mark_for_close_noop_witness :
    (get_by_fileno c4Node.pool 1 = some c4Conn ∧
      c4Conn.state &&& CS_MARK_FOR_CLOSE ≠ 0) ∧
    on_bytes_received c4Node 1 [9] = c4Node ∧
    get_bytes_to_send c4Node 1 = none :=
  ⟨⟨by decide, by decide⟩,
    (c4_mark_for_close_noop c4Node 1 c4Conn [9] 2 id (by decide) (by decide)).1,
    (c4_mark_for_close_noop c4Node 1 c4Conn [9] 2 id (by decide) (by decide)).2.2.1⟩

theorem broadcast_loop_eq (msg : List Nat) (senderFileno : Option Nat) (prepend : Bool)
    (netNum : Nat) (types : List Nat) (excl : Bool) (pool : List Connection) :
    broadcast_loop msg senderFileno prepend netNum types excl pool =
      (pool.map (fun c =>
          if broadcast_selected senderFileno netNum types excl c then
            conn_enqueue_msg c msg prepend
          else c),
        (pool.filter (broadcast_selected senderFileno netNum types excl)).map
          Connection.fileno) := by
  induction pool with
  | nil => rfl
  | cons c rest ih =>
    simp only [broadcast_loop, ih]
    by_cases hsel : broadcast_selected senderFileno netNum types excl c = true
    · simp [hsel]
    · have hsel2 : broadcast_selected senderFileno netNum types excl c = false :=
        Bool.eq_false_iff.mpr hsel
      simp [hsel2]

theorem get_by_fileno_map_of_mem (pool : List Connection) (f : Connection → Connection)
    (hf : ∀ c, (f c).fileno = c.fileno) (c : Connection) (hmem : c ∈ pool)
    (hnodup : (pool.map Connection.fileno).Nodup) :
    get_by_fileno (pool.map f) c.fileno = some (f c) := by
  induction pool with
  | nil => cases hmem
  | cons d rest ih =>
    rw [List.map_cons] at hnodup ⊢
    rcases List.mem_cons.mp hmem with heq | hmem2
    · subst heq
      simp only [get_by_fileno]
      rw [List.find?_cons_of_pos]
      simp [hf]
    · have hne : d.fileno ≠ c.fileno := by
        intro heq
        exact (List.nodup_cons.mp hnodup).1 (heq ▸ List.mem_map_of_mem Connection.fileno hmem2)
      simp only [get_by_fileno]
      rw [List.find?_cons_of_neg]
      · exact ih hmem2 (List.nodup_cons.mp hnodup).2
      · simp [hf, hne]

theorem conn_enqueue_msg_count (c : Connection) (msg : List Nat) (prepend : Bool)
    (hactive : is_active c = true) :
    (conn_enqueue_msg c msg prepend).outputMsgs.count msg = c.outputMsgs.count msg + 1 := by
  have hmark : ¬ (c.state &&& CS_MARK_FOR_CLOSE ≠ 0) := by
    simp only [is_active, Bool.and_eq_true, decide_eq_true_eq] at hactive
    simpa using hactive.2
  cases prepend with
  | false => simp [conn_enqueue_msg, hmark]
  | true =>
    simp only [conn_enqueue_msg, hmark, if_false, if_true, reduceIte]
    simp only [prepend_msg_buf]
    by_cases hidx : c.outputIndex = 0
    · simp [hidx, List.count_cons]
    · rw [if_neg hidx]
      cases hq : c.outputMsgs with
      | nil => simp [hq]
      | cons h t => simp [hq, List.count_cons]; omega

/-- C3: `broadcast` returns exactly the active pooled connections that are in
the union of the requested connection types, are not the sender, and whose
network number matches the broadcast network (or the wildcard, unless
`exclude_relays`); each recipient has the message enqueued exactly once to
its output buffer, every non-recipient — in particular the sender — is
untouched. -/
theorem c3_broadcast (node : Node) (msg : List Nat) (senderFileno : Option Nat)
    (prepend : Bool) (networkNum : Option Nat) (connectionTypes : Option (List Nat))
    (excludeRelays : Bool) (c : Connection) (hmem : c ∈ node.pool)
    (hnodup : (node.pool.map Connection.fileno).Nodup) :
    (c.fileno ∈ (broadcast node msg senderFileno prepend networkNum connectionTypes
        excludeRelays).2 ↔
      broadcast_selected senderFileno (networkNum.getD node.networkNum)
        (connectionTypes.getD [CT_RELAY_ALL]) excludeRelays c = true) ∧
    get_by_fileno (broadcast node msg senderFileno prepend networkNum connectionTypes
        excludeRelays).1.pool c.fileno =
      some (if broadcast_selected senderFileno (networkNum.getD node.networkNum)
          (connectionTypes.getD [CT_RELAY_ALL]) excludeRelays c then
        conn_enqueue_msg c msg prepend
      else c) ∧
    (broadcast_selected senderFileno (networkNum.getD node.networkNum)
        (connectionTypes.getD [CT_RELAY_ALL]) excludeRelays c = true →
      (conn_enqueue_msg c msg prepend).outputMsgs.count msg =
        c.outputMsgs.count msg + 1) ∧
    (senderFileno = some c.fileno →
      get_by_fileno (broadcast node msg senderFileno prepend networkNum connectionTypes
          excludeRelays).1.pool c.fileno = some c) := by
  have hbl := broadcast_loop_eq msg senderFileno prepend (networkNum.getD node.networkNum)
    (connectionTypes.getD [CT_RELAY_ALL]) excludeRelays node.pool
  have henq : ∀ x : Connection, (conn_enqueue_msg x msg prepend).fileno = x.fileno := by
    intro x
    simp only [conn_enqueue_msg]
    split
    · rfl
    · split <;> rfl
  have hsel : ∀ x : Connection,
      (if broadcast_selected senderFileno (networkNum.getD node.networkNum)
          (connectionTypes.getD [CT_RELAY_ALL]) excludeRelays x then
        conn_enqueue_msg x msg prepend
      else x).fileno = x.fileno := by
    intro x
    split
    · exact henq x
    · rfl
  have hlookup := get_by_fileno_map_of_mem node.pool _ hsel c hmem hnodup
  refine ⟨?_, ?_, ?_, ?_⟩
  · constructor
    · intro hin
      simp only [broadcast, hbl] at hin
      obtain ⟨c2, hc2mem, hc2eq⟩ := List.mem_map.mp hin
      obtain ⟨hc2pool, hc2sel⟩ := List.mem_filter.mp hc2mem
      have : c2 = c := List.inj_on_of_nodup_map hnodup hc2pool hmem hc2eq
      rw [← this]
      exact hc2sel
    · intro hselc
      simp only [broadcast, hbl]
      exact List.mem_map_of_mem Connection.fileno (List.mem_filter.mpr ⟨hmem, hselc⟩)
  · simp only [broadcast, hbl]
    exact hlookup
  · intro hselc
    have hactive : is_active c = true := by
      simp only [broadcast_selected, Bool.and_eq_true] at hselc
      exact hselc.1.1.2
    exact conn_enqueue_msg_count c msg prepend hactive
  · intro hsend
    have hnotsel : broadcast_selected senderFileno (networkNum.getD node.networkNum)
        (connectionTypes.getD [CT_RELAY_ALL]) excludeRelays c = false := by
      simp [broadcast_selected, hsend]
    simp only [broadcast, hbl] at hlookup ⊢
    rw [hlookup, hnotsel]
    simp

/-- Scenario S3, connection A: relay on network 7, established, fd 1. -/
def c3ConnA : Connection where
  fileno := 1
  ip := 101
  port := 9000
  fromMe := true
  connectionType := CT_RELAY_ALL
  networkNum := 7
  state := CS_ESTABLISHED
  inputList := []
  outputMsgs := []
  outputIndex := 0

/-- Scenario S3, connection B (the sender): relay on network 7, fd 2. -/
def c3ConnB : Connection :=
  { c3ConnA with fileno := 2, ip := 102 }

/-- Scenario S3, connection C: relay on network 7, fd 3. -/
def c3ConnC : Connection :=
  { c3ConnA with fileno := 3, ip := 103 }

/-- A node pooling exactly A, B, C. -/
def c3Node : Node where
  pool := [c3ConnA, c3ConnB, c3ConnC]
  connectionQueue := []
  disconnectQueue := []
  outboundPeers := []
  numRetriesByIp := ∅
  alarms := []
  events := []
  relayPeerRequests := 0
  networkNum := 7
  maxConnectRetries := 3
  sdnConnection := none

theorem c3_broadcast_witness :
    ((c3Node.pool.map Connection.fileno).Nodup ∧ c3ConnA ∈ c3Node.pool) ∧
    (broadcast c3Node [9] (some 2) false (some 7) none false).2 = [1, 3] ∧
    (c3ConnA.fileno ∈ (broadcast c3Node [9] (some 2) false (some 7) none false).2 ↔
      broadcast_selected (some 2) ((some 7).getD c3Node.networkNum)
        (Option.getD none [CT_RELAY_ALL]) false c3ConnA = true) :=
  ⟨⟨by decide, by decide⟩, by decide,
    (c3_broadcast c3Node [9] (some 2) false (some 7) none false c3ConnA
      (by decide) (by decide)).1⟩

/-- Fibonacci numbers (`fibonacci 1 = 1`, `fibonacci 2 = 1`, …). -/
def fibonacci : Nat → Nat
  | 0 => 0
  | 1 => 1
  | n + 2 => fibonacci n + fibonacci (n + 1)

/-- Modelled from the spec: `AbstractNode._get_next_retry_timeout`, the
Fibonacci backoff of the per-address retry count, capped at the seventh value
of the schedule (1, 1, 2, 3, 5, 8, 13 seconds, capped at 13).  This is the
schedule the spec prescribes and the repository's own
`test_get_next_retry_timeout` unit test asserts, but the function is absent
from the sources, and nothing in the present retry path computes it:
`destroy_conn` schedules every retry alarm with the flat
`CONNECTION_RETRY_SECONDS` instead. -/
def get_next_retry_timeout (numRetries : Nat) : Nat :=
  fibonacci (min numRetries 6 + 1)

/-- An eligible destroyed connection: a blockchain-node peer at 30:40. -/
def c5Conn : Connection where
  fileno := 4
  ip := 30
  port := 40
  fromMe := true
  connectionType := CT_BLOCKCHAIN_NODE
  networkNum := 7
  state := CS_CONNECTING
  inputList := []
  outputMsgs := []
  outputIndex := 0

/-- A node pooling `c5Conn`, with no retry history. -/
def c5Node : Node where
  pool := [c5Conn]
  connectionQueue := []
  disconnectQueue := []
  outboundPeers := []
  numRetriesByIp := ∅
  alarms := []
  events := []
  relayPeerRequests := 0
  networkNum := 7
  maxConnectRetries := 3
  sdnConnection := none

/-- The state after two full destroy-then-failed-retry cycles for `c5Conn`:
each `destroy_conn(retry_connection=True)` schedules a retry alarm, and each
`_retry_init_client_socket` bumps the per-address retry count. -/
def c5AfterTwoRetries : Node :=
  retry_init_client_socket
    (destroy_conn
      (retry_init_client_socket (destroy_conn c5Node c5Conn true) 30 40
        CT_BLOCKCHAIN_NODE)
      c5Conn true)
    30 40 CT_BLOCKCHAIN_NODE

/-- The state after the third destroy, which schedules the third retry
alarm. -/
def c5AfterThirdDestroy : Node :=
  destroy_conn c5AfterTwoRetries c5Conn true

/-- C5: the claim says the successively scheduled connection-retry delays
follow the backoff schedule 1, 1, 2, 3, 5, 8, 13 capped at 13 as the
per-address retry count grows — the schedule the spec states and the
repository's own `test_get_next_retry_timeout` asserts.  The code in the
sources does not do this: `destroy_conn` registers every retry alarm with the
flat `CONNECTION_RETRY_SECONDS` and never consults the retry count (the
`_get_next_retry_timeout` helper the test exercises does not exist in the
sources, so the test itself cannot pass).  Evaluated at the failing input:
after three destroys of the eligible `c5Conn` the scheduled delays are
1, 1, 1, although the per-address retry count at the third scheduling is
already 2, where the claimed schedule requires a 2-second delay. -/
theorem c5_flat_retry_delay_bug :
    c5AfterThirdDestroy.alarms =
      [CONNECTION_RETRY_SECONDS, CONNECTION_RETRY_SECONDS, CONNECTION_RETRY_SECONDS] ∧
    c5AfterThirdDestroy.alarms = [1, 1, 1] ∧
    c5AfterTwoRetries.numRetriesByIp.lookup (30, 40) = some 2 ∧
    get_next_retry_timeout 2 = 2 := by
  decide

/-- A node with no connections, no retry history and
`MAX_CONNECT_RETRIES = 3`. -/
def c6Node : Node where
  pool := []
  connectionQueue := []
  disconnectQueue := []
  outboundPeers := []
  numRetriesByIp := ∅
  alarms := []
  events := []
  relayPeerRequests := 0
  networkNum := 7
  maxConnectRetries := 3
  sdnConnection := none

/-- C6, counterexample to the claim as stated: for the non-SDN peer
`(10, 20)` with connection type `BLOCKCHAIN_NODE` and
`MAX_CONNECT_RETRIES = 3`, after three failed `_retry_init_client_socket`
calls no `PEER_CONN_ERR` event has been submitted at all
(`on_failed_connection_retry` only reports relay connections), and — because
the capping call deletes the retry counter — a fourth call starts over and
enqueues yet another connect. -/
theorem c6_retry_cap_counterexample :
    CT_BLOCKCHAIN_NODE &&& CT_SDN = 0 ∧
    (iterate_retry 10 20 CT_BLOCKCHAIN_NODE 3 c6Node).events = [] ∧
    (iterate_retry 10 20 CT_BLOCKCHAIN_NODE 4 c6Node).connectionQueue =
      [(10, 20), (10, 20), (10, 20)] := by
  decide

theorem retry_cycle_progress (node : Node) (ip port ctype : Nat)
    (hsdn : ctype &&& CT_SDN = 0) (hfresh : node.numRetriesByIp.lookup (ip, port) = none) :
    ∀ j, j < node.maxConnectRetries →
      ((iterate_retry ip port ctype j node).numRetriesByIp.lookup (ip, port) =
          if j = 0 then none else some j) ∧
      (iterate_retry ip port ctype j node).connectionQueue =
        node.connectionQueue ++ List.replicate j (ip, port) ∧
      (iterate_retry ip port ctype j node).events = node.events ∧
      (iterate_retry ip port ctype j node).maxConnectRetries = node.maxConnectRetries := by
  intro j
  induction j with
  | zero =>
    intro _
    exact ⟨by simpa using hfresh, by simp [iterate_retry], rfl, rfl⟩
  | succ k ih =>
    intro hk
    obtain ⟨hlk, hq, hev, hmax⟩ := ih (Nat.lt_of_succ_lt hk)
    have hgetd : ((iterate_retry ip port ctype k node).numRetriesByIp.lookup
        (ip, port)).getD 0 = k := by
      rw [hlk]
      by_cases h0 : k = 0
      · simp [h0]
      · simp [h0]
    have hshould : should_retry_connection
        { iterate_retry ip port ctype k node with
            numRetriesByIp :=
              (iterate_retry ip port ctype k node).numRetriesByIp.insert (ip, port) (k + 1) }
        ip port ctype = true := by
      simp only [should_retry_connection, hsdn, AList.lookup_insert, Option.getD_some, hmax]
      simp [hk]
    simp only [iterate_retry, retry_init_client_socket, hgetd, hshould, if_true,
      enqueue_connection]
    refine ⟨?_, ?_, ?_, ?_⟩
    · simp [AList.lookup_insert]
    · rw [hq, List.append_assoc]
      rw [← List.replicate_succ' k (ip, port)]
    · exact hev
    · exact hmax

/-- C6 (amended): for a non-SDN peer address with no retry history, the run
of `MAX_CONNECT_RETRIES` successive `_retry_init_client_socket` calls
enqueues a connect on each of the first `MAX_CONNECT_RETRIES - 1` calls; the
final call enqueues nothing, deletes the per-address retry counter (so a
later call would start a fresh cycle), and submits a `PEER_CONN_ERR` event
exactly once if the connection type is a relay type — and not at all
otherwise.  For SDN connections every call enqueues a retry regardless of the
count. -/
theorem c6_retry_cap (node : Node) (ip port ctype : Nat)
    (hmax1 : 1 ≤ node.maxConnectRetries) (hsdn : ctype &&& CT_SDN = 0)
    (hfresh : node.numRetriesByIp.lookup (ip, port) = none) :
    ((iterate_retry ip port ctype node.maxConnectRetries node).connectionQueue =
        node.connectionQueue ++ List.replicate (node.maxConnectRetries - 1) (ip, port) ∧
      (iterate_retry ip port ctype node.maxConnectRetries node).numRetriesByIp.lookup
        (ip, port) = none ∧
      (iterate_retry ip port ctype node.maxConnectRetries node).events =
        node.events ++ (if ctype &&& CT_RELAY_ALL ≠ 0 then [(ip, port)] else [])) ∧
    (∀ (node2 : Node) (ip2 port2 ctype2 : Nat), ctype2 &&& CT_SDN ≠ 0 →
      (retry_init_client_socket node2 ip2 port2 ctype2).connectionQueue =
        node2.connectionQueue ++ [(ip2, port2)]) := by
  constructor
  · obtain ⟨j, hj⟩ : ∃ j, node.maxConnectRetries = j + 1 :=
      ⟨node.maxConnectRetries - 1, (Nat.succ_pred_eq_of_pos hmax1).symm⟩
    obtain ⟨hlk, hq, hev, hmax⟩ :=
      retry_cycle_progress node ip port ctype hsdn hfresh j (by omega)
    have hgetd : ((iterate_retry ip port ctype j node).numRetriesByIp.lookup
        (ip, port)).getD 0 = j := by
      rw [hlk]
      by_cases h0 : j = 0
      · simp [h0]
      · simp [h0]
    have hshould : should_retry_connection
        { iterate_retry ip port ctype j node with
            numRetriesByIp :=
              (iterate_retry ip port ctype j node).numRetriesByIp.insert (ip, port) (j + 1) }
        ip port ctype = false := by
      simp only [should_retry_connection, hsdn, AList.lookup_insert, Option.getD_some, hmax,
        hj]
      simp
    rw [hj]
    simp only [iterate_retry, retry_init_client_socket, hgetd, hshould,
      on_failed_connection_retry]
    simp only [Bool.false_eq_true, if_false]
    by_cases hrel : ctype &&& CT_RELAY_ALL ≠ 0
    · rw [if_pos hrel]
      refine ⟨?_, ?_, ?_⟩
      · simp [hq]
      · simp [AList.lookup_erase]
      · simp [hev, hrel]
    · rw [if_neg hrel]
      refine ⟨?_, ?_, ?_⟩
      · simp [hq]
      · simp [AList.lookup_erase]
      · simp [hev, hrel]
  · intro node2 ip2 port2 ctype2 hsdn2
    have hshould2 : should_retry_connection
        { node2 with
            numRetriesByIp := node2.numRetriesByIp.insert (ip2, port2)
              ((node2.numRetriesByIp.lookup (ip2, port2)).getD 0 + 1) }
        ip2 port2 ctype2 = true := by
      simp [should_retry_connection, hsdn2]
    simp only [retry_init_client_socket, hshould2, if_true, enqueue_connection]

theorem c6_retry_cap_witness :
    (1 ≤ c6Node.maxConnectRetries ∧ CT_RELAY_TRANSACTION &&& CT_SDN = 0 ∧
      c6Node.numRetriesByIp.lookup (10, 20) = none) ∧
    (iterate_retry 10 20 CT_RELAY_TRANSACTION c6Node.maxConnectRetries c6Node).events =
      c6Node.events ++ (if CT_RELAY_TRANSACTION &&& CT_RELAY_ALL ≠ 0 then [(10, 20)] else []) :=
  ⟨⟨by decide, by decide, by decide⟩,
    (c6_retry_cap c6Node 10 20 CT_RELAY_TRANSACTION (by decide) (by decide)
      (by decide)).1.2.2⟩

/-! ### Message tracker (`utils/buffers/message_tracker.py`)

A message is embedded as its raw bytes (`List Nat`), so the
`len(message.rawbytes())` validation is a length check.  A raised
`ValueError` is `none`. -/

/-- Embeds `MessageTrackerEntry`: the tracked message (if any), its byte length, how
many bytes of it have been sent, and the time it was queued. -/
structure MessageTrackerEntry where
  message : Option (List Nat)
  length : Nat
  sentBytes : Nat
  queuedTime : Nat
deriving DecidableEq, Repr

/-- The `message is not None and num_bytes != len(message.rawbytes())`
validation shared by `append_message` and `prepend_message`. -/
def tracker_length_mismatch (numBytes : Nat) (message : Option (List Nat)) : Bool :=
  match message with
  | some m => numBytes ≠ m.length
  | none => false

/-- Embeds `MessageTracker.append_message`: validate, then append a fresh entry to
the tail of the queue. -/
def append_message (q : List MessageTrackerEntry) (numBytes : Nat)
    (message : Option (List Nat)) (now : Nat) : Option (List MessageTrackerEntry) :=
  if tracker_length_mismatch numBytes message then none
  else some (q ++ [⟨message, numBytes, 0, now⟩])

/-- Embeds `MessageTracker.prepend_message`: validate; when the queue is non-empty
and its head is partially sent, insert the fresh entry immediately after the
head.  In every other case the source inserts nothing at all — there is no
`else` branch. -/
def prepend_message (q : List MessageTrackerEntry) (numBytes : Nat)
    (message : Option (List Nat)) (now : Nat) : Option (List MessageTrackerEntry) :=
  if tracker_length_mismatch numBytes message then none
  else
    match q with
    | head :: rest =>
      if head.sentBytes ≠ 0 then some (head :: ⟨message, numBytes, 0, now⟩ :: rest)
      else some (head :: rest)
    | [] => some []

/-- Embeds `MessageTracker.advance_bytes`: consume sent bytes from the head of the
queue, popping fully sent messages; the source asserts that the queue is
non-empty whenever bytes remain, so running out of tracked messages is a
failure (`none`). -/
def tracker_advance_bytes : Nat → List MessageTrackerEntry → Nat →
    Option (List MessageTrackerEntry)
  | _, q, 0 => some q
  | 0, _, _ + 1 => none
  | fuel + 1, q, bytesLeft + 1 =>
    match q with
    | [] => none
    | head :: rest =>
      if head.length - head.sentBytes ≤ bytesLeft + 1 then
        tracker_advance_bytes fuel rest (bytesLeft + 1 - (head.length - head.sentBytes))
      else some ({ head with sentBytes := head.sentBytes + (bytesLeft + 1) } :: rest)

/-- C7: the claim is what the tracker should do, but the code drops the
message whenever the head is not partially sent.  On the empty queue
`prepend_message(3, msg)` leaves the queue empty, and with an unsent head it
leaves the queue unchanged, instead of inserting the new entry at the front —
while the partially-sent-head branch does insert after the head.  The
untracked message's bytes still reach the output buffer, so a later
`advance_bytes` hits the source's `assert len(self.messages) > 0`
(here: `tracker_advance_bytes` fails). -/
theorem c7_prepend_message_dropped :
    prepend_message [] 3 (some [1, 2, 3]) 0 = some [] ∧
    prepend_message [⟨some [7], 1, 0, 0⟩] 3 (some [1, 2, 3]) 5 =
      some [⟨some [7], 1, 0, 0⟩] ∧
    prepend_message [⟨some [7, 7], 2, 1, 0⟩] 3 (some [1, 2, 3]) 5 =
      some [⟨some [7, 7], 2, 1, 0⟩, ⟨some [1, 2, 3], 3, 0, 5⟩] ∧
    tracker_advance_bytes ([] : List MessageTrackerEntry).length [] 3 = none := by
  decide

/-! ### C10: the class-level `messages` deque

In the source, `messages: Deque[MessageTrackerEntry] = deque()` is a class
attribute of `MessageTracker`, initialised once when the class is created.
`__init__` stores only the connection and never assigns an instance-level
`messages`, and the methods only mutate the deque in place (`append`,
`appendleft`, `popleft`), which never creates an instance attribute either.
Python attribute lookup therefore resolves `self.messages` to the one
class-level deque for every instance, so the embedding carries a single
shared queue next to the set of constructed trackers. -/

/-- The world of all `MessageTracker` instances: the single class-level
queue, and the connections for which a tracker has been constructed. -/
structure TrackerWorld where
  messages : List MessageTrackerEntry
  trackers : List Nat
deriving DecidableEq, Repr

/-- Embeds `MessageTracker.__init__(connection)`: records the connection; the
class-level queue is untouched and no per-instance queue is created. -/
def tracker_init (w : TrackerWorld) (conn : Nat) : TrackerWorld :=
  { w with trackers := w.trackers ++ [conn] }

/-- Attribute lookup of `self.messages` on the tracker of `conn`: the
instance has no own `messages`, so the lookup falls through to the class
attribute, whatever the instance. -/
def tracker_messages (w : TrackerWorld) (conn : Nat) : List MessageTrackerEntry :=
  w.messages

/-- Calls `append_message` on the tracker of connection `conn`. -/
def world_append_message (w : TrackerWorld) (conn : Nat) (numBytes : Nat)
    (message : Option (List Nat)) (now : Nat) : Option TrackerWorld :=
  match append_message (tracker_messages w conn) numBytes message now with
  | none => none
  | some q => some { w with messages := q }

/-- C10: all `MessageTracker` instances share the one class-level `messages`
queue.  After `A.append_message`, the new entry is the tail of `B.messages`
for every other tracker `B` — trackers have no per-connection queues. -/
theorem c10_shared_class_level_queue (w : TrackerWorld) (a b : Nat) (numBytes : Nat)
    (message : Option (List Nat)) (now : Nat)
    (hv : tracker_length_mismatch numBytes message = false) :
    world_append_message w a numBytes message now =
      some { w with messages := w.messages ++ [⟨message, numBytes, 0, now⟩] } ∧
    ∀ w2, world_append_message w a numBytes message now = some w2 →
      tracker_messages w2 b =
        tracker_messages w b ++ [⟨message, numBytes, 0, now⟩] := by
  have happ : world_append_message w a numBytes message now =
      some { w with messages := w.messages ++ [⟨message, numBytes, 0, now⟩] } := by
    simp [world_append_message, append_message, tracker_messages, hv]
  refine ⟨happ, ?_⟩
  intro w2 hw2
  rw [happ] at hw2
  cases hw2
  rfl

theorem c10_shared_class_level_queue_witness :
    tracker_length_mismatch 2 (some [4, 5]) = false ∧
    world_append_message (tracker_init (tracker_init ⟨[], []⟩ 1) 2) 1 2 (some [4, 5]) 9 =
      some { tracker_init (tracker_init ⟨[], []⟩ 1) 2 with
              messages := ([] : List MessageTrackerEntry) ++ [⟨some [4, 5], 2, 0, 9⟩] } :=
  ⟨by decide,
    (c10_shared_class_level_queue (tracker_init (tracker_init ⟨[], []⟩ 1) 2) 1 2 2
      (some [4, 5]) 9 (by decide)).1⟩

/-! ### Eth transaction feed (`feed/eth/eth_new_transaction_feed.py`)

The base `Feed`, `Subscriber`, `FeedSource` and the filter handlers are not
among the sources; they are modelled from the spec.  A raw transaction is its
hash, an opaque contents id, the local-region flag and the source kind; the
serialized entry carries the same three data fields. -/

/-- Modelled from the spec: `FeedSource` — where the published transaction
entered the node. -/
inductive FeedSource where
  | blockchainSocket
  | blockchainRpc
  | bdnSocket
deriving DecidableEq, Repr

/-- Embeds `EthRawTransaction`. -/
structure EthRawTransaction where
  txHash : Nat
  txContents : Nat
  localRegion : Bool
  source : FeedSource
deriving DecidableEq, Repr

/-- Embeds `EthTransactionFeedEntry` as built by `serialize`. -/
structure EthTransactionFeedEntry where
  txHash : Nat
  txContents : Nat
  localRegion : Bool
deriving DecidableEq, Repr

/-- Modelled from the spec: a subscriber — its id, the
`include_from_blockchain` option (absent means the default `true`), whether a
filter expression was set, and the outcome of validating the filter against
the derived state (the filter evaluation itself lives outside the sources). -/
structure Subscriber where
  subscriptionId : Nat
  includeFromBlockchain : Option Bool
  filters : Bool
  validateResult : Bool
deriving DecidableEq, Repr

/-- The Eth `newTxs` feed: its subscribers. -/
structure EthNewTransactionFeed where
  subscribers : List Subscriber
deriving DecidableEq, Repr

/-- Embeds `EthNewTransactionFeed.serialize`. -/
def eth_serialize (raw : EthRawTransaction) : EthTransactionFeedEntry :=
  ⟨raw.txHash, raw.txContents, raw.localRegion⟩

/-- Embeds `EthNewTransactionFeed.any_subscribers_want_item`: for a transaction from
the blockchain socket, some subscriber must accept blockchain-sourced items;
for every other source the answer is `true` unconditionally — even with zero
subscribers. -/
def any_subscribers_want_item (feed : EthNewTransactionFeed)
    (raw : EthRawTransaction) : Bool :=
  if raw.source = FeedSource.blockchainSocket then
    feed.subscribers.any fun s => s.includeFromBlockchain.getD true
  else true

/-- Embeds `EthNewTransactionFeed.should_publish_message_to_subscriber`: the
source-kind gate, then the filter expression (when one is set). -/
def should_publish_message_to_subscriber (s : Subscriber) (raw : EthRawTransaction) :
    Bool :=
  if raw.source = FeedSource.blockchainSocket && !(s.includeFromBlockchain.getD true) then
    false
  else if s.filters then s.validateResult
  else true

/-- The outcome of a `publish` call: how many times `serialize` ran and the
deliveries made. -/
structure PublishResult where
  serializeCalls : Nat
  deliveries : List (Nat × EthTransactionFeedEntry)
deriving DecidableEq, Repr

/-- Modelled from the spec: `Feed.publish` — if `any_subscribers_want_item`
is false, short-circuit without serialization; otherwise serialize once and
deliver to each subscriber that passes the gate and the filter. -/
def base_feed_publish (feed : EthNewTransactionFeed) (raw : EthRawTransaction) :
    PublishResult :=
  if any_subscribers_want_item feed raw = false then ⟨0, []⟩
  else
    let entry := eth_serialize raw
    ⟨1, (feed.subscribers.filter fun s =>
        should_publish_message_to_subscriber s raw).map fun s => (s.subscriptionId, entry)⟩

/-- Embeds `EthNewTransactionFeed.publish`: return early unless some subscriber
wants the item, then defer to the base class. -/
def eth_feed_publish (feed : EthNewTransactionFeed) (raw : EthRawTransaction) :
    PublishResult :=
  if ¬ any_subscribers_want_item feed raw then ⟨0, []⟩
  else base_feed_publish feed raw

/-- A feed with zero subscribers. -/
def c9EmptyFeed : EthNewTransactionFeed := ⟨[]⟩

/-- A raw transaction that did not come from the blockchain socket. -/
def c9BdnRaw : EthRawTransaction := ⟨1, 2, false, FeedSource.bdnSocket⟩

/-- C9, counterexample to the claim as stated: on a feed with zero
subscribers, a transaction sourced from the BDN (not the blockchain socket)
makes `any_subscribers_want_item` return `true`, and `publish` serializes it
(once) despite there being nobody to deliver to. -/
theorem c9_publish_short_circuit_counterexample :
    c9EmptyFeed.subscribers = [] ∧
    any_subscribers_want_item c9EmptyFeed c9BdnRaw = true ∧
    (eth_feed_publish c9EmptyFeed c9BdnRaw).serializeCalls = 1 := by
  decide

/-- C9 (amended): on a feed with zero subscribers,
`any_subscribers_want_item` is false — and `publish` returns without any
serialization — exactly when the transaction came from the blockchain
socket; for every other source `any_subscribers_want_item` is `true` and
`publish` serializes once while delivering to no one. -/
theorem c9_publish_short_circuit (feed : EthNewTransactionFeed)
    (raw : EthRawTransaction) (hempty : feed.subscribers = []) :
    (raw.source = FeedSource.blockchainSocket →
      any_subscribers_want_item feed raw = false ∧
      eth_feed_publish feed raw = ⟨0, []⟩) ∧
    (raw.source ≠ FeedSource.blockchainSocket →
      any_subscribers_want_item feed raw = true ∧
      (eth_feed_publish feed raw).serializeCalls = 1 ∧
      (eth_feed_publish feed raw).deliveries = []) := by
  constructor
  · intro hsrc
    have hwant : any_subscribers_want_item feed raw = false := by
      simp [any_subscribers_want_item, hsrc, hempty]
    refine ⟨hwant, ?_⟩
    simp [eth_feed_publish, hwant]
  · intro hsrc
    have hwant : any_subscribers_want_item feed raw = true := by
      simp [any_subscribers_want_item, hsrc]
    refine ⟨hwant, ?_, ?_⟩ <;>
      simp [eth_feed_publish, base_feed_publish, hwant, hempty]

/-- A raw transaction from the blockchain socket. -/
def c9BlockchainRaw : EthRawTransaction := ⟨1, 2, false, FeedSource.blockchainSocket⟩

theorem c9_publish_short_circuit_witness :
    c9EmptyFeed.subscribers = [] ∧
    (any_subscribers_want_item c9EmptyFeed c9BlockchainRaw = false ∧
      eth_feed_publish c9EmptyFeed c9BlockchainRaw = ⟨0, []⟩) :=
  ⟨by decide,
    (c9_publish_short_circuit c9EmptyFeed c9BlockchainRaw (by decide)).1 (by decide)⟩

end BxModel
